import Mathlib

/-!
Verification of the pgoapi-go session/protocol layer (`api/session.go`).

A shallow embedding of the `Session` type and its operations. Conventions:

* `time.Time` values are modelled as `Nat` milliseconds since epoch, so the
  source's `getTimestamp` is the identity on the model.
* Go pointers that may be `nil` are modelled as `Option`.
* Go `float64` coordinates are modelled as `Int`; the session layer only
  copies them around, never computes with them.
* Protobuf serialization (`proto.Marshal`) is modelled as a total injection
  into a symbolic `Bytes` type (for the message shapes used here the Go
  marshaller does not fail, so the dead error branches of the source are not
  modelled).
* The network exchange (`rpc.Request`), the status-code classifier
  (`GetErrorFromStatus`), the credential provider, the signer and the
  cell-id geometry live outside `api/session.go`; they are modelled from the
  spec as oracles / abstract capabilities (see the doc comments below).
* Go slice indexing `xs[i]` is modelled by `List.get?` together with a
  distinguished `panic` outcome for the out-of-bounds case.
-/

/-- Raw byte strings (used for the session hash and ticket payload bytes). -/
def RawBytes := List Nat
deriving DecidableEq, Repr, Inhabited

/-- Modelled from the spec: `Location` (package `api`, outside `session.go`):
latitude, longitude, altitude, accuracy, plus the derived ordered sequence of
cell identifiers covering the current area (`GetCellIDs`), stored here as a
field since the geometry itself is out of scope. -/
structure Location where
  lat : Int
  lon : Int
  alt : Int
  accuracy : Int
  cellIDs : List Nat
deriving DecidableEq, Repr, Inhabited

def Location.getCellIDs (l : Location) : List Nat := l.cellIDs

/-- Model of `protos.AuthTicket`: opaque start/end bytes plus an expiry timestamp in
milliseconds since epoch (`ExpireTimestampMs`, a `uint64`). -/
structure AuthTicket where
  startBytes : RawBytes
  expireTimestampMs : Nat
  endBytes : RawBytes
deriving DecidableEq, Repr, Inhabited

/-- Modelled from the spec: the credential-provider contract
(`auth.Provider`, outside this repository's `src/`): a provider identifier,
an access token, and a `Login` step that may fail; its outcome is recorded
here as data since the provider performs its own external I/O. -/
structure Provider where
  providerString : String
  accessToken : String
  loginResult : Except String String
deriving Repr

def Provider.GetProviderString (p : Provider) : String := p.providerString

def Provider.GetAccessToken (p : Provider) : String := p.accessToken

/-- Decode failures wrapped by `ErrResponse` (the model does not track the
text of the underlying protobuf error). -/
inductive DecodeErr where
  | unmarshalFailed
deriving DecidableEq, Repr

/-- The error values a session operation can return: the sentinel errors of
the `api` package (`ErrFormatting`, `ErrNoURL`, `ErrProxyDead`, `ErrRequest`),
the wrapping `ErrResponse`, status-classified errors, and arbitrary other
errors (`errors.New`, provider errors, transport errors). -/
inductive ApiError where
  | formatting
  | noURL
  | proxyDead
  | request
  | response (inner : DecodeErr)
  | status (code : Int)
  | other (msg : String)
deriving DecidableEq, Repr

/-- The request types of `protos.RequestType` used by `session.go`. -/
inductive RequestType where
  | GET_PLAYER
  | GET_HATCHED_EGGS
  | GET_INVENTORY
  | CHECK_AWARDED_BADGES
  | DOWNLOAD_SETTINGS
  | GET_MAP_OBJECTS
  | CHECK_CHALLENGE
  | VERIFY_CHALLENGE
  | ENCOUNTER
deriving DecidableEq, Repr

/-- The parameter messages `session.go` marshals into sub-requests. -/
inductive PMsg where
  | downloadSettings (hash : String)
  | getMapObjects (cellId : List Nat) (sinceTimestampMs : List Int)
      (longitude : Int) (latitude : Int)
  | getInventory (lastTimestampMs : Int)
  | verifyChallenge (token : String)
  | encounter (encounterId : Nat) (spawnPointId : String)
      (playerLatitude : Int) (playerLongitude : Int)
deriving DecidableEq, Repr

/-- The device-fingerprint profile hard-coded in `Call`'s signature. -/
structure DeviceInfo where
  deviceId : String
  deviceBrand : String
  deviceModel : String
  deviceModelBoot : String
  hardwareManufacturer : String
  hardwareModel : String
  firmwareBrand : String
  firmwareType : String
deriving DecidableEq, Repr

/-- Model of `protos.Signature` as populated by `Call` (fields the source sets). -/
structure SignatureMsg where
  requestHash : List Nat
  locationHash1 : Nat
  locationHash2 : Nat
  stationary : Bool
  deviceInfo : DeviceInfo
  sessionHash : RawBytes
  timestamp : Nat
  timestampSinceStart : Nat
  unknown25 : Nat
deriving DecidableEq, Repr

mutual
/-- Model of `protos.Request`: a request type plus an optional marshalled parameter
message. -/
inductive Request where
  | mk (requestType : RequestType) (requestMessage : Option Bytes)

/-- Symbolic protobuf-serialized byte strings: `proto.Marshal` is modelled as
the corresponding injection (it does not fail on these message shapes), and
`newcrypto.Encrypt` as the `encrypted` injection. -/
inductive Bytes where
  | ticketBytes (t : Option AuthTicket)
  | requestBytes (r : Request)
  | signatureBytes (sig : SignatureMsg)
  | pmsgBytes (m : PMsg)
  | sendEncSigBytes (encryptedSignature : Bytes)
  | encrypted (inner : Bytes) (auxTimestamp : Nat)
end

def Request.requestType : Request → RequestType
  | .mk t _ => t

def Request.requestMessage : Request → Option Bytes
  | .mk _ m => m

/-- Modelled from the spec: the signer capability `Encrypt(bytes,
auxTimestamp) -> bytes` (package `newcrypto`, outside `src/`), modelled as an
abstract injection. -/
def newcryptoEncrypt (b : Bytes) (auxTimestamp : Nat) : Bytes :=
  Bytes.encrypted b auxTimestamp

/-- Modelled from the spec: the signer contract (`newcrypto.PogoSignature`,
outside `src/`): per-request hashing keyed by the serialized ticket, two
location hashes (one ticket-keyed, one not), and a fixed salt (`Hash25`). -/
structure PogoSignature where
  hashRequest : Bytes → Bytes → Nat
  hashLocation1 : Bytes → Int → Int → Int → Nat
  hashLocation2 : Int → Int → Int → Nat
  hash25 : Nat

/-- The platform-request types used by the source (the wire enum has more
values; only `SEND_ENCRYPTED_SIGNATURE` is emitted by `session.go`). -/
inductive PlatformRequestType where
  | UNKNOWN_PLATFORM_CLIENT_API
  | SEND_ENCRYPTED_SIGNATURE
deriving DecidableEq, Repr

structure PlatformRequest where
  type : PlatformRequestType
  requestMessage : Bytes

/-- Model of `protos.RequestEnvelope` as built by `Call` (fields the source sets). -/
structure RequestEnvelope where
  requestId : Nat
  statusCode : Int
  msSinceLastLocationfix : Int
  longitude : Int
  latitude : Int
  accuracy : Int
  requests : List Request
  authTicket : Option AuthTicket
  authInfo : Option (String × String × Int)
  platformRequests : List PlatformRequest

/-- A raw sub-response byte blob of a `ResponseEnvelope`, modelled by the
typed payload it decodes to (`malformed` decodes to nothing). -/
inductive Blob where
  | checkChallenge (showChallenge : Bool) (challengeUrl : String)
  | mapObjects (payload : Nat)
  | player (payload : Nat)
  | inventory (payload : Nat)
  | verifyChallengeResp (payload : Nat)
  | encounterResp (payload : Nat)
  | malformed
deriving DecidableEq, Repr

/-- Model of `protos.ResponseEnvelope`: the fields `session.go` reads. -/
structure ResponseEnvelope where
  returns : List Blob
  statusCode : Int
  authTicket : Option AuthTicket
  apiUrl : String
deriving Repr

/-- Model of `response.GetAuthTicket()`: the generated getter, `nil` when unset. -/
def ResponseEnvelope.GetAuthTicket (r : ResponseEnvelope) : Option AuthTicket :=
  r.authTicket

/-- Model of `protos.CheckChallengeResponse` (fields the source reads); the zero value
is what Go leaves behind when `proto.Unmarshal`'s error is ignored. -/
structure CheckChallengeResponse where
  showChallenge : Bool
  challengeUrl : String
deriving DecidableEq, Repr

instance : Inhabited CheckChallengeResponse := ⟨⟨false, ""⟩⟩

structure GetMapObjectsResponse where
  payload : Nat
deriving DecidableEq, Repr

structure GetPlayerResponse where
  payload : Nat
deriving DecidableEq, Repr

structure GetInventoryResponse where
  payload : Nat
deriving DecidableEq, Repr

structure VerifyChallengeResponse where
  payload : Nat
deriving DecidableEq, Repr

structure EncounterResponse where
  payload : Nat
deriving DecidableEq, Repr

/-- Model of `proto.Unmarshal` into a `CheckChallengeResponse`. -/
def unmarshalCheckChallenge : Blob → Option CheckChallengeResponse
  | .checkChallenge s u => some ⟨s, u⟩
  | _ => none

/-- Model of `proto.Unmarshal` into a `GetMapObjectsResponse`. -/
def unmarshalMapObjects : Blob → Option GetMapObjectsResponse
  | .mapObjects p => some ⟨p⟩
  | _ => none

/-- Model of `proto.Unmarshal` into a `GetPlayerResponse`. -/
def unmarshalPlayer : Blob → Option GetPlayerResponse
  | .player p => some ⟨p⟩
  | _ => none

/-- Model of `proto.Unmarshal` into a `GetInventoryResponse`. -/
def unmarshalInventory : Blob → Option GetInventoryResponse
  | .inventory p => some ⟨p⟩
  | _ => none

/-- Model of `proto.Unmarshal` into a `VerifyChallengeResponse`. -/
def unmarshalVerifyChallenge : Blob → Option VerifyChallengeResponse
  | .verifyChallengeResp p => some ⟨p⟩
  | _ => none

/-- Model of `proto.Unmarshal` into an `EncounterResponse`. -/
def unmarshalEncounter : Blob → Option EncounterResponse
  | .encounterResp p => some ⟨p⟩
  | _ => none

/-- The `Session` aggregate (`session.go`): the fields the protocol layer
reads or mutates. The external `feed`, `rpc` transport and debug machinery
carry no protocol state and are passed as oracles instead. -/
structure Session where
  signer : PogoSignature
  location : Location
  url : String
  hasTicket : Bool
  ticket : Option AuthTicket
  started : Nat
  provider : Provider
  hash : RawBytes

def defaultURL : String := "https://pgorelease.nianticlabs.com/plfe/rpc"

def downloadSettingsHash : String := "05daf51635c82611d1aac95c0b051d3ec088a930"

/-- Model of `getTimestamp`: milliseconds since epoch of a `time.Time`; the identity
here since the model represents time values as milliseconds already. -/
def getTimestamp (t : Nat) : Nat := t

/-- Wrapping `uint64` subtraction `a - b` (both operands below `2 ^ 64`). -/
def sub64 (a b : Nat) : Nat := (a + (2 ^ 64 - b % 2 ^ 64)) % 2 ^ 64

/-- Model of `NewSession`: url starts empty, no ticket, `started` is the construction
time, hash is `make([]byte, 32)` (32 zero bytes). -/
def NewSession (signer : PogoSignature) (provider : Provider)
    (location : Location) (now : Nat) : Session :=
  { signer := signer
    location := location
    url := ""
    hasTicket := false
    ticket := none
    started := now
    provider := provider
    hash := List.replicate 32 0 }

/-- Model of `IsExpired`: true iff there is no ticket (`!hasTicket || ticket == nil`)
or `ticket.ExpireTimestampMs < getTimestamp(time.Now())`. -/
def Session.IsExpired (s : Session) (now : Nat) : Bool :=
  if !s.hasTicket || s.ticket.isNone then
    true
  else
    match s.ticket with
    | none => true
    | some t => t.expireTimestampMs < getTimestamp now

/-- Model of `setTicket`: unconditionally flags `hasTicket` and stores the (possibly
nil) pointer. -/
def Session.setTicket (s : Session) (ticket : Option AuthTicket) : Session :=
  { s with hasTicket := true, ticket := ticket }

/-- Model of `setURL`: `fmt.Sprintf("https://%s/rpc", urlToken)`. -/
def Session.setURL (s : Session) (urlToken : String) : Session :=
  { s with url := "https://" ++ urlToken ++ "/rpc" }

/-- Model of `getURL`: the cached url when non-empty, else the default. -/
def Session.getURL (s : Session) : String :=
  if s.url ≠ "" then s.url else defaultURL

/-- The envelope-construction part of `Call`: the base envelope with its
fixed constants, the location snapshot, either the ticket or auth-info, and
— when authenticated — the single encrypted-signature platform request. -/
def Session.buildEnvelope (s : Session) (requests : List Request) (now : Nat) :
    RequestEnvelope :=
  let signaturePlatformRequests : List PlatformRequest :=
    let t := getTimestamp now
    let ticket := Bytes.ticketBytes s.ticket
    let requestHash := requests.map fun r =>
      s.signer.hashRequest ticket (Bytes.requestBytes r)
    let signature : SignatureMsg :=
      { requestHash := requestHash
        locationHash1 :=
          s.signer.hashLocation1 ticket s.location.lat s.location.lon s.location.alt
        locationHash2 :=
          s.signer.hashLocation2 s.location.lat s.location.lon s.location.alt
        stationary := true
        deviceInfo :=
          { deviceId := "<device_id>"
            deviceBrand := "Apple"
            deviceModel := "iPhone"
            deviceModelBoot := "Iphone7,2"
            hardwareManufacturer := "Apple"
            hardwareModel := "N66AP"
            firmwareBrand := "iPhone OS"
            firmwareType := "9.3.3" }
        sessionHash := s.hash
        timestamp := t
        timestampSinceStart := sub64 t (getTimestamp s.started)
        unknown25 := s.signer.hash25 }
    let encryptedSignature :=
      newcryptoEncrypt (Bytes.signatureBytes signature)
        (signature.timestampSinceStart % 2 ^ 32)
    [{ type := PlatformRequestType.SEND_ENCRYPTED_SIGNATURE
       requestMessage := Bytes.sendEncSigBytes encryptedSignature }]
  { requestId := 8145806132888207460
    statusCode := 2
    msSinceLastLocationfix := 989
    longitude := s.location.lon
    latitude := s.location.lat
    accuracy := s.location.accuracy
    requests := requests
    authTicket := if s.hasTicket then s.ticket else none
    authInfo :=
      if s.hasTicket then none
      else some (s.provider.GetProviderString, s.provider.GetAccessToken, 59)
    platformRequests := if s.hasTicket then signaturePlatformRequests else [] }

/-- One transport exchange as dispatched by `Call`: the url, the envelope and
the proxy selector handed to `rpc.Request`. -/
structure Exchange where
  url : String
  envelope : RequestEnvelope
  proxyId : Int

/-- Modelled from the spec: the transport contract (`RPC.Request`, outside
`src/`): one envelope exchange returning a decoded response envelope or a
transport-level failure. -/
def RPCOracle := String → RequestEnvelope → Int → Except ApiError ResponseEnvelope

/-- Model of `Call`: builds the envelope and dispatches it; returns the exchange that
was performed together with the transport's verbatim result. `Call` itself
never mutates the session. -/
def Session.Call (s : Session) (rpc : RPCOracle) (requests : List Request)
    (proxyId : Int) (now : Nat) : Exchange × Except ApiError ResponseEnvelope :=
  let ex : Exchange := ⟨s.getURL, s.buildEnvelope requests now, proxyId⟩
  (ex, rpc ex.url ex.envelope ex.proxyId)

/-- Model of `MoveTo`: replaces the location snapshot; a pure local state update. -/
def Session.MoveTo (s : Session) (location : Location) : Session :=
  { s with location := location }

/-- The outcome of a Go method returning `(*T, error)`: a (possibly nil)
value together with a (possibly nil) error, or a runtime panic (out-of-bounds
slice indexing). -/
inductive OpResult (α : Type) where
  | ret (value : Option α) (err : Option ApiError)
  | panic
deriving DecidableEq, Repr

/-- Whether `pat` is a prefix of the character list. -/
def charsStartWith : List Char → List Char → Bool
  | [], _ => true
  | _ :: _, [] => false
  | p :: ps, c :: cs => p = c && charsStartWith ps cs

/-- Whether `pat` occurs inside the character list. -/
def charsContain (pat : List Char) : List Char → Bool
  | [] => charsStartWith pat []
  | c :: cs => charsStartWith pat (c :: cs) || charsContain pat cs

/-- Model of `strings.Contains`: `pat` occurs as a substring of `s`. -/
def stringContains (s pat : String) : Bool :=
  charsContain pat.data s.data

/-- Modelled from the spec: `GetErrorFromStatus` (package `api`, outside
`src/`): the status-code classifier, a pure function of the status code
alone, independent of which operation was called. Its concrete mapping is
external, so the operations below take it as a parameter. -/
def StatusClassifier := Int → Option ApiError

/-- The fixed bootstrap sub-request bundle of `Init` (player info, hatched
eggs, inventory, awarded badges, download-settings with the pinned settings
hash). -/
def initRequests : List Request :=
  [ .mk .GET_PLAYER none
  , .mk .GET_HATCHED_EGGS none
  , .mk .GET_INVENTORY none
  , .mk .CHECK_AWARDED_BADGES none
  , .mk .DOWNLOAD_SETTINGS
      (some (Bytes.pmsgBytes (.downloadSettings downloadSettingsHash))) ]

/-- Model of `Init`: provider login, fresh random session hash (the fresh bytes enter
as `newHash`; `crypto/rand` reads are modelled as never failing), the fixed
bootstrap request bundle, one `Call`, then the no-URL check, `setURL` and
`setTicket`. Returns the exchange performed (when one was), the resulting
session and the returned error. -/
def Session.Init (s : Session) (rpc : RPCOracle) (newHash : RawBytes)
    (proxyId : Int) (now : Nat) : Option Exchange × Session × Option ApiError :=
  match s.provider.loginResult with
  | .error e => (none, s, some (.other e))
  | .ok _ =>
    let s := { s with hash := newHash }
    let (ex, r) := s.Call rpc initRequests proxyId now
    match r with
    | .error e => (some ex, s, some e)
    | .ok response =>
      if response.apiUrl = "" then
        (some ex, s, some .noURL)
      else
        let s := s.setURL response.apiUrl
        let s := s.setTicket response.GetAuthTicket
        (some ex, s, none)

/-- The sub-request bundle `Announce` builds: `lastTimestamp` is
`time.Now().Unix() * 1000` (seconds, truncated from `now`, times 1000). -/
def announceRequests (s : Session) (now : Nat) : List Request :=
  let cellIDs := s.location.getCellIDs
  let lastTimestamp : Int := (now / 1000 : Nat) * 1000
  let settingsMessage := Bytes.pmsgBytes (.downloadSettings downloadSettingsHash)
  let getMapObjectsMessage := Bytes.pmsgBytes
    (.getMapObjects cellIDs (List.replicate cellIDs.length 0) s.location.lon s.location.lat)
  let getInventoryMessage := Bytes.pmsgBytes (.getInventory lastTimestamp)
  [ .mk .GET_PLAYER none
  , .mk .GET_HATCHED_EGGS none
  , .mk .GET_INVENTORY (some getInventoryMessage)
  , .mk .CHECK_AWARDED_BADGES none
  , .mk .DOWNLOAD_SETTINGS (some settingsMessage)
  , .mk .GET_MAP_OBJECTS (some getMapObjectsMessage)
  , .mk .CHECK_CHALLENGE none ]

/-- Model of `Announce`: one `Call` with the map-objects bundle; transport errors are
collapsed to `ErrRequest` except `ErrProxyDead`; guard `len(Returns) < 5`
then index `Returns[5]` for the map objects; then decode the challenge check
at `Returns[0]` (its decode error is ignored, leaving the zero value);
`ShowChallenge` with the rotation marker updates the base url. -/
def Session.Announce (s : Session) (rpc : RPCOracle) (classify : StatusClassifier)
    (proxyId : Int) (now : Nat) :
    Exchange × Session × OpResult GetMapObjectsResponse :=
  let (ex, r) := s.Call rpc (announceRequests s now) proxyId now
  (ex,
    match r with
    | .error e =>
      if e = .proxyDead then (s, .ret none (some .proxyDead))
      else (s, .ret none (some .request))
    | .ok response =>
      if response.returns.length < 5 then
        (s, .ret none (some (.other "Empty response")))
      else
        match response.returns.get? 5 with
        | none => (s, .panic)
        | some blob =>
          match unmarshalMapObjects blob with
          | none => (s, .ret none (some (.response .unmarshalFailed)))
          | some mapObjects =>
            let challenge :=
              (unmarshalCheckChallenge ((response.returns.get? 0).getD .malformed)).getD
                default
            if challenge.showChallenge then
              if stringContains challenge.challengeUrl "new RPC url" then
                (s.setURL response.apiUrl, .ret (some mapObjects) none)
              else
                (s, .ret (some mapObjects) none)
            else
              (s, .ret (some mapObjects) (classify response.statusCode)))

/-- Model of `CheckChallenge`: a single check-challenge sub-request, dispatched with
the fixed proxy selector `-1`; guard `len(Returns) < 1`, decode at index 0,
then return alongside the status-classified error. -/
def Session.CheckChallenge (s : Session) (rpc : RPCOracle)
    (classify : StatusClassifier) (now : Nat) :
    Exchange × Session × OpResult CheckChallengeResponse :=
  let (ex, r) := s.Call rpc [.mk .CHECK_CHALLENGE none] (-1) now
  (ex,
    match r with
    | .error e => (s, .ret none (some e))
    | .ok response =>
      if response.returns.length < 1 then
        (s, .ret none (some (.other "Empty response")))
      else
        match response.returns.get? 0 with
        | none => (s, .panic)
        | some blob =>
          match unmarshalCheckChallenge blob with
          | none => (s, .ret none (some (.response .unmarshalFailed)))
          | some challenge => (s, .ret (some challenge) (classify response.statusCode)))

/-- Model of `SolveCaptcha`: a verify-challenge sub-request carrying the solution
token, dispatched with the fixed proxy selector `-1`; guard
`len(Returns) < 1`, decode at index 0. -/
def Session.SolveCaptcha (s : Session) (rpc : RPCOracle)
    (classify : StatusClassifier) (solution : String) (now : Nat) :
    Exchange × Session × OpResult VerifyChallengeResponse :=
  let requestMessage := Bytes.pmsgBytes (.verifyChallenge solution)
  let (ex, r) := s.Call rpc [.mk .VERIFY_CHALLENGE (some requestMessage)] (-1) now
  (ex,
    match r with
    | .error e => (s, .ret none (some e))
    | .ok response =>
      if response.returns.length < 1 then
        (s, .ret none (some (.other "Empty response")))
      else
        match response.returns.get? 0 with
        | none => (s, .panic)
        | some blob =>
          match unmarshalVerifyChallenge blob with
          | none => (s, .ret none (some (.response .unmarshalFailed)))
          | some challenge => (s, .ret (some challenge) (classify response.statusCode)))

/-- Model of `GetPlayer`: a single get-player sub-request; note the source indexes
`Returns[0]` with no length guard. -/
def Session.GetPlayer (s : Session) (rpc : RPCOracle) (classify : StatusClassifier)
    (proxyId : Int) (now : Nat) :
    Exchange × Session × OpResult GetPlayerResponse :=
  let (ex, r) := s.Call rpc [.mk .GET_PLAYER none] proxyId now
  (ex,
    match r with
    | .error e => (s, .ret none (some e))
    | .ok response =>
      match response.returns.get? 0 with
      | none => (s, .panic)
      | some blob =>
        match unmarshalPlayer blob with
        | none => (s, .ret none (some (.response .unmarshalFailed)))
        | some player => (s, .ret (some player) (classify response.statusCode)))

/-- Model of `Encounter`: an encounter sub-request carrying id, spawn point and the
caller-supplied location; guard `len(Returns) < 1`, decode at index 0. -/
def Session.Encounter (s : Session) (rpc : RPCOracle) (classify : StatusClassifier)
    (encounterID : Nat) (spawnID : String) (loc : Location)
    (proxyId : Int) (now : Nat) :
    Exchange × Session × OpResult EncounterResponse :=
  let requestMessage := Bytes.pmsgBytes (.encounter encounterID spawnID loc.lat loc.lon)
  let (ex, r) := s.Call rpc [.mk .ENCOUNTER (some requestMessage)] proxyId now
  (ex,
    match r with
    | .error e => (s, .ret none (some e))
    | .ok response =>
      if response.returns.length < 1 then
        (s, .ret none (some (.other "Empty response")))
      else
        match response.returns.get? 0 with
        | none => (s, .panic)
        | some blob =>
          match unmarshalEncounter blob with
          | none => (s, .ret none (some (.response .unmarshalFailed)))
          | some encounter => (s, .ret (some encounter) (classify response.statusCode)))

/-- Model of `GetInventory`: a single get-inventory sub-request; note the source
indexes `Returns[0]` with no length guard. -/
def Session.GetInventory (s : Session) (rpc : RPCOracle) (classify : StatusClassifier)
    (proxyId : Int) (now : Nat) :
    Exchange × Session × OpResult GetInventoryResponse :=
  let (ex, r) := s.Call rpc [.mk .GET_INVENTORY none] proxyId now
  (ex,
    match r with
    | .error e => (s, .ret none (some e))
    | .ok response =>
      match response.returns.get? 0 with
      | none => (s, .panic)
      | some blob =>
        match unmarshalInventory blob with
        | none => (s, .ret none (some (.response .unmarshalFailed)))
        | some inventory => (s, .ret (some inventory) (classify response.statusCode)))

/-! ## Concrete fixtures -/

def cSigner : PogoSignature where
  hashRequest := fun _ _ => 0
  hashLocation1 := fun _ _ _ _ => 0
  hashLocation2 := fun _ _ _ => 0
  hash25 := 0

def cProvider : Provider := ⟨"google", "token123", .ok "token123"⟩

def cLoc : Location := ⟨10, 20, 30, 5, [1, 2, 3]⟩

def cLoc2 : Location := ⟨-7, 83, 2, 9, [4]⟩

def cTicket : AuthTicket := ⟨[1], 1000, [2]⟩

def cTicket2 : AuthTicket := ⟨[9], 5000, [7]⟩

def cAuthSession : Session :=
  { signer := cSigner
    location := cLoc
    url := ""
    hasTicket := true
    ticket := some cTicket
    started := 0
    provider := cProvider
    hash := List.replicate 32 0 }

def cUnauthSession : Session := NewSession cSigner cProvider cLoc 0

def classifyC : StatusClassifier :=
  fun code => if code = 1 then none else some (.status code)

def cHash1 : RawBytes := List.replicate 32 1

/-- A bootstrap response with a usable api url but no auth ticket. -/
def cRespNoTicket : ResponseEnvelope := ⟨[], 1, none, "pgo.example.com"⟩

def oracleNoTicket : RPCOracle := fun _ _ _ => .ok cRespNoTicket

/-- A response carrying a fresh auth ticket (and a player payload at
index 0). -/
def cRespNewTicket : ResponseEnvelope :=
  ⟨[.player 3], 1, some cTicket2, "other.example.com"⟩

def oracleNewTicket : RPCOracle := fun _ _ _ => .ok cRespNewTicket

/-- A response with an empty `Returns` sequence. -/
def cRespEmpty : ResponseEnvelope := ⟨[], 1, none, ""⟩

def oracleEmpty : RPCOracle := fun _ _ _ => .ok cRespEmpty

/-- A response whose `Returns` sequence has exactly five entries. -/
def cResp5 : ResponseEnvelope :=
  ⟨[.checkChallenge false "", .malformed, .malformed, .malformed, .mapObjects 1],
    1, none, ""⟩

def oracle5 : RPCOracle := fun _ _ _ => .ok cResp5

/-- A response whose challenge check shows a challenge whose url contains
the rotation marker, with map objects at index 5. -/
def cRespChal : ResponseEnvelope :=
  ⟨[.checkChallenge true "please visit new RPC url now", .malformed, .malformed,
      .malformed, .malformed, .mapObjects 7],
    1, none, "rot.example.com"⟩

def oracleChal : RPCOracle := fun _ _ _ => .ok cRespChal

/-- A response whose challenge check shows no challenge, with map objects at
index 5 and a non-success status code. -/
def cRespNoChal : ResponseEnvelope :=
  ⟨[.checkChallenge false "", .malformed, .malformed, .malformed, .malformed,
      .mapObjects 7],
    52, none, ""⟩

def oracleNoChal : RPCOracle := fun _ _ _ => .ok cRespNoChal

/-- A bootstrap response with an empty api url but a valid ticket. -/
def cRespEmptyURL : ResponseEnvelope := ⟨[], 1, some cTicket2, ""⟩

def oracleEmptyURL : RPCOracle := fun _ _ _ => .ok cRespEmptyURL

/-- An authenticated session whose construction time was 42. -/
def cStartedSession : Session := { cAuthSession with started := 42 }

def dummyExchange : Exchange := ⟨"", cUnauthSession.buildEnvelope [] 0, 0⟩

/-- The spec's session invariant: `hasTicket == true` implies the stored
`AuthTicket` is non-nil. -/
def ticketInv (s : Session) : Bool := !s.hasTicket || s.ticket.isSome

/-! ## Claims -/

/-- The spec's reading of `IsExpired` ("expiry less than or equal to current
time counts as expired"), stated for comparison with the source's
`Session.IsExpired`. -/
def isExpiredSpecLE (s : Session) (now : Nat) : Bool :=
  if !s.hasTicket || s.ticket.isNone then
    true
  else
    match s.ticket with
    | none => true
    | some t => t.expireTimestampMs ≤ getTimestamp now

/-- C1 counterexample: a session holding a ticket whose expiry equals the
current time. The claim (expiry ≤ now ⟹ expired) demands `true`, but the
source compares with strict `<` and returns `false`. -/
theorem isExpired_boundary_counterexample :
    cAuthSession.ticket = some cTicket ∧
    cTicket.expireTimestampMs = 1000 ∧
    cAuthSession.IsExpired 1000 = false ∧
    isExpiredSpecLE cAuthSession 1000 = true :=
  ⟨rfl, rfl, rfl, rfl⟩

/-- C1 (amended): `IsExpired` returns true iff the session holds no ticket
(`hasTicket` false or a nil ticket), or the ticket's expiry timestamp (ms) is
STRICTLY less than the current time (ms); at expiry equal to the current time
it returns false. -/
theorem isExpired_true_iff_strict (s : Session) (now : Nat) :
    s.IsExpired now = true ↔
      s.hasTicket = false ∨ s.ticket = none ∨
        ∃ t, s.ticket = some t ∧ t.expireTimestampMs < now := by
  cases h : s.hasTicket <;> cases ht : s.ticket <;>
    simp [Session.IsExpired, h, ht, getTimestamp]

/-- C2: the envelope `Call` builds on an authenticated session carries
exactly one platform request, of the send-encrypted-signature type, and no
auth-info; on an unauthenticated session it carries the provider id and
access token as auth-info and no platform request. -/
theorem call_envelope_auth_discipline (s : Session) (reqs : List Request) (now : Nat) :
    (s.hasTicket = true →
      (s.buildEnvelope reqs now).platformRequests.length = 1 ∧
      (∀ pr ∈ (s.buildEnvelope reqs now).platformRequests,
        pr.type = PlatformRequestType.SEND_ENCRYPTED_SIGNATURE) ∧
      (s.buildEnvelope reqs now).authInfo = none) ∧
    (s.hasTicket = false →
      (s.buildEnvelope reqs now).authInfo =
        some (s.provider.GetProviderString, s.provider.GetAccessToken, 59) ∧
      (s.buildEnvelope reqs now).platformRequests = []) := by
  constructor
  · intro h
    refine ⟨?_, ?_, ?_⟩ <;> simp [Session.buildEnvelope, h]
  · intro h
    exact ⟨by simp [Session.buildEnvelope, h], by simp [Session.buildEnvelope, h]⟩

/-- C2 witness: the two branches evaluated on concrete authenticated and
unauthenticated sessions. -/
theorem call_envelope_auth_discipline_witness :
    ((cAuthSession.buildEnvelope [] 0).platformRequests.length = 1 ∧
      (∀ pr ∈ (cAuthSession.buildEnvelope [] 0).platformRequests,
        pr.type = PlatformRequestType.SEND_ENCRYPTED_SIGNATURE) ∧
      (cAuthSession.buildEnvelope [] 0).authInfo = none) ∧
    ((cUnauthSession.buildEnvelope [] 0).authInfo =
        some (cUnauthSession.provider.GetProviderString,
          cUnauthSession.provider.GetAccessToken, 59) ∧
      (cUnauthSession.buildEnvelope [] 0).platformRequests = []) :=
  ⟨(call_envelope_auth_discipline cAuthSession [] 0).1 rfl,
   (call_envelope_auth_discipline cUnauthSession [] 0).2 rfl⟩

/-! ## Helper lemmas -/

/-- Operation `CheckChallenge` never mutates the session. -/
theorem checkChallenge_session_unchanged (s : Session) (rpc : RPCOracle)
    (classify : StatusClassifier) (now : Nat) :
    (s.CheckChallenge rpc classify now).2.1 = s := by
  unfold Session.CheckChallenge Session.Call
  dsimp only
  repeat' split
  all_goals rfl

/-- Operation `SolveCaptcha` never mutates the session. -/
theorem solveCaptcha_session_unchanged (s : Session) (rpc : RPCOracle)
    (classify : StatusClassifier) (solution : String) (now : Nat) :
    (s.SolveCaptcha rpc classify solution now).2.1 = s := by
  unfold Session.SolveCaptcha Session.Call
  dsimp only
  repeat' split
  all_goals rfl

/-- Operation `GetPlayer` never mutates the session. -/
theorem getPlayer_session_unchanged (s : Session) (rpc : RPCOracle)
    (classify : StatusClassifier) (proxyId : Int) (now : Nat) :
    (s.GetPlayer rpc classify proxyId now).2.1 = s := by
  unfold Session.GetPlayer Session.Call
  dsimp only
  repeat' split
  all_goals rfl

/-- Operation `Encounter` never mutates the session. -/
theorem encounter_session_unchanged (s : Session) (rpc : RPCOracle)
    (classify : StatusClassifier) (encounterID : Nat) (spawnID : String)
    (loc : Location) (proxyId : Int) (now : Nat) :
    (s.Encounter rpc classify encounterID spawnID loc proxyId now).2.1 = s := by
  unfold Session.Encounter Session.Call
  dsimp only
  repeat' split
  all_goals rfl

/-- Operation `GetInventory` never mutates the session. -/
theorem getInventory_session_unchanged (s : Session) (rpc : RPCOracle)
    (classify : StatusClassifier) (proxyId : Int) (now : Nat) :
    (s.GetInventory rpc classify proxyId now).2.1 = s := by
  unfold Session.GetInventory Session.Call
  dsimp only
  repeat' split
  all_goals rfl

/-- Operation `Announce` touches at most the base url: ticket state, session hash and
start time are unchanged. -/
theorem announce_ticket_frame (s : Session) (rpc : RPCOracle)
    (classify : StatusClassifier) (proxyId : Int) (now : Nat) :
    (s.Announce rpc classify proxyId now).2.1.hasTicket = s.hasTicket ∧
    (s.Announce rpc classify proxyId now).2.1.ticket = s.ticket ∧
    (s.Announce rpc classify proxyId now).2.1.hash = s.hash ∧
    (s.Announce rpc classify proxyId now).2.1.started = s.started := by
  unfold Session.Announce Session.Call
  dsimp only
  repeat' split
  all_goals simp [Session.setURL]

/-- When the provider login succeeds, `Init` performs exactly one exchange:
the bootstrap bundle sent from the hash-refreshed session. -/
theorem init_exchange_shape (s : Session) (rpc : RPCOracle) (newHash : RawBytes)
    (proxyId : Int) (now : Nat) (tok : String)
    (hl : s.provider.loginResult = .ok tok) :
    (s.Init rpc newHash proxyId now).1 =
      some ⟨Session.getURL { s with hash := newHash },
        Session.buildEnvelope { s with hash := newHash } initRequests now,
        proxyId⟩ := by
  unfold Session.Init Session.Call
  rw [hl]
  dsimp only
  repeat' split
  all_goals rfl

/-- A successful `Init` stores exactly the auth ticket carried by the
bootstrap response of its single exchange (which may be nil). -/
theorem init_success_shape (s : Session) (rpc : RPCOracle) (newHash : RawBytes)
    (proxyId : Int) (now : Nat)
    (h : (s.Init rpc newHash proxyId now).2.2 = none) :
    (s.Init rpc newHash proxyId now).2.1.hasTicket = true ∧
    ∃ ex resp, (s.Init rpc newHash proxyId now).1 = some ex ∧
      rpc ex.url ex.envelope ex.proxyId = .ok resp ∧
      (s.Init rpc newHash proxyId now).2.1.ticket = resp.GetAuthTicket := by
  cases hl : s.provider.loginResult with
  | error e => simp [Session.Init, hl] at h
  | ok tok =>
    cases hr : rpc (Session.getURL { s with hash := newHash })
        (Session.buildEnvelope { s with hash := newHash } initRequests now) proxyId with
    | error e => simp [Session.Init, Session.Call, hl, hr] at h
    | ok response =>
      by_cases hu : response.apiUrl = ""
      · simp [Session.Init, Session.Call, hl, hr, hu] at h
      · refine ⟨?_, ⟨⟨Session.getURL { s with hash := newHash },
            Session.buildEnvelope { s with hash := newHash } initRequests now, proxyId⟩,
            response, ?_, ?_, ?_⟩⟩ <;>
          simp [Session.Init, Session.Call, Session.setURL, Session.setTicket, hl, hr, hu]

/-- C3 counterexample: a successful `Init` whose bootstrap response carries
no auth ticket leaves the session with `hasTicket = true` and a nil stored
ticket, violating the claimed invariant. -/
theorem init_stores_nil_ticket_counterexample :
    cRespNoTicket.authTicket = none ∧
    (cUnauthSession.Init oracleNoTicket cHash1 0 0).2.2 = none ∧
    (cUnauthSession.Init oracleNoTicket cHash1 0 0).2.1.hasTicket = true ∧
    (cUnauthSession.Init oracleNoTicket cHash1 0 0).2.1.ticket = none ∧
    ticketInv (cUnauthSession.Init oracleNoTicket cHash1 0 0).2.1 = false :=
  ⟨rfl, rfl, rfl, rfl, rfl⟩

/-- C3 (amended): construction establishes the invariant
(`hasTicket == true` implies a non-nil ticket) and every operation other
than `Init` preserves it (they never modify the ticket state); `Init` flags
`hasTicket` and stores exactly the auth ticket carried by the bootstrap
response, so after a successful `Init` the stored ticket is non-nil iff that
response carried one. -/
theorem ticket_invariant_amended (sig : PogoSignature) (prov : Provider)
    (loc loc2 : Location) (now0 : Nat) (s : Session) (rpc : RPCOracle)
    (classify : StatusClassifier) (pid : Int) (now : Nat) (newHash : RawBytes)
    (sol spid : String) (eid : Nat) :
    ticketInv (NewSession sig prov loc now0) = true ∧
    (ticketInv s = true → ticketInv (s.MoveTo loc2) = true) ∧
    (ticketInv s = true → ticketInv (s.Announce rpc classify pid now).2.1 = true) ∧
    (ticketInv s = true → ticketInv (s.CheckChallenge rpc classify now).2.1 = true) ∧
    (ticketInv s = true → ticketInv (s.SolveCaptcha rpc classify sol now).2.1 = true) ∧
    (ticketInv s = true → ticketInv (s.GetPlayer rpc classify pid now).2.1 = true) ∧
    (ticketInv s = true → ticketInv (s.Encounter rpc classify eid spid loc2 pid now).2.1 = true) ∧
    (ticketInv s = true → ticketInv (s.GetInventory rpc classify pid now).2.1 = true) ∧
    ((s.Init rpc newHash pid now).2.2 = none →
      (s.Init rpc newHash pid now).2.1.hasTicket = true ∧
      ∃ ex resp, (s.Init rpc newHash pid now).1 = some ex ∧
        rpc ex.url ex.envelope ex.proxyId = .ok resp ∧
        (s.Init rpc newHash pid now).2.1.ticket = resp.GetAuthTicket) := by
  refine ⟨rfl, id, ?_, ?_, ?_, ?_, ?_, ?_, init_success_shape s rpc newHash pid now⟩
  · intro h
    have hf := announce_ticket_frame s rpc classify pid now
    unfold ticketInv at *
    rw [hf.1, hf.2.1]
    exact h
  · rw [checkChallenge_session_unchanged s rpc classify now]
    exact id
  · rw [solveCaptcha_session_unchanged s rpc classify sol now]
    exact id
  · rw [getPlayer_session_unchanged s rpc classify pid now]
    exact id
  · rw [encounter_session_unchanged s rpc classify eid spid loc2 pid now]
    exact id
  · rw [getInventory_session_unchanged s rpc classify pid now]
    exact id

/-- C3 witness: amended invariant clauses instantiated on concrete runs. -/
theorem ticket_invariant_amended_witness :
    ticketInv (cAuthSession.MoveTo cLoc2) = true ∧
    ticketInv (cAuthSession.Announce oracleNewTicket classifyC 0 0).2.1 = true ∧
    ((cUnauthSession.Init oracleNewTicket cHash1 0 0).2.1.hasTicket = true ∧
      ∃ ex resp, (cUnauthSession.Init oracleNewTicket cHash1 0 0).1 = some ex ∧
        oracleNewTicket ex.url ex.envelope ex.proxyId = .ok resp ∧
        (cUnauthSession.Init oracleNewTicket cHash1 0 0).2.1.ticket = resp.GetAuthTicket) :=
  ⟨(ticket_invariant_amended cSigner cProvider cLoc cLoc2 0 cAuthSession oracleNewTicket
      classifyC 0 0 cHash1 "" "" 0).2.1 rfl,
   (ticket_invariant_amended cSigner cProvider cLoc cLoc2 0 cAuthSession oracleNewTicket
      classifyC 0 0 cHash1 "" "" 0).2.2.1 rfl,
   (ticket_invariant_amended cSigner cProvider cLoc cLoc2 0 cUnauthSession oracleNewTicket
      classifyC 0 0 cHash1 "" "" 0).2.2.2.2.2.2.2.2 rfl⟩

/-- C4: the code, evaluated at the failing inputs. `GetPlayer` and
`GetInventory` index `Returns[0]` with no length guard, so an empty
`Returns` sequence is an out-of-bounds read (a Go panic), not a
response-decode error; `Announce` guards `len(Returns) < 5` but then indexes
`Returns[5]`, so a response with exactly five sub-responses passes the guard
and reads out of bounds. -/
theorem returns_index_out_of_bounds_panics :
    cRespEmpty.returns.length = 0 ∧
    (cAuthSession.GetPlayer oracleEmpty classifyC 0 0).2.2 = .panic ∧
    (cAuthSession.GetInventory oracleEmpty classifyC 0 0).2.2 = .panic ∧
    cResp5.returns.length = 5 ∧
    (cAuthSession.Announce oracle5 classifyC 0 0).2.2 = .panic :=
  ⟨rfl, rfl, rfl, rfl, rfl⟩

/-- C7 counterexample: a `GetPlayer` call whose response envelope carries a
fresh auth ticket completes successfully, yet the session's stored ticket is
not replaced. -/
theorem call_ticket_replacement_counterexample :
    cRespNewTicket.authTicket = some cTicket2 ∧
    cTicket2 ≠ cTicket ∧
    cAuthSession.ticket = some cTicket ∧
    (cAuthSession.GetPlayer oracleNewTicket classifyC 0 0).2.2 =
      .ret (some ⟨3⟩) none ∧
    (cAuthSession.GetPlayer oracleNewTicket classifyC 0 0).2.1.ticket = some cTicket :=
  ⟨rfl, by decide, rfl, rfl, rfl⟩

/-- C7 (amended): ticket replacement happens only through `Init`. `Call`
itself and the operation methods never update the stored ticket, even when
the response envelope carries a new auth ticket. -/
theorem only_init_replaces_ticket (s : Session) (rpc : RPCOracle)
    (classify : StatusClassifier) (pid : Int) (now : Nat) (sol spid : String)
    (eid : Nat) (loc : Location) :
    (s.GetPlayer rpc classify pid now).2.1 = s ∧
    (s.GetInventory rpc classify pid now).2.1 = s ∧
    (s.CheckChallenge rpc classify now).2.1 = s ∧
    (s.SolveCaptcha rpc classify sol now).2.1 = s ∧
    (s.Encounter rpc classify eid spid loc pid now).2.1 = s ∧
    (s.Announce rpc classify pid now).2.1.ticket = s.ticket ∧
    (s.Announce rpc classify pid now).2.1.hasTicket = s.hasTicket :=
  ⟨getPlayer_session_unchanged s rpc classify pid now,
   getInventory_session_unchanged s rpc classify pid now,
   checkChallenge_session_unchanged s rpc classify now,
   solveCaptcha_session_unchanged s rpc classify sol now,
   encounter_session_unchanged s rpc classify eid spid loc pid now,
   (announce_ticket_frame s rpc classify pid now).2.1,
   (announce_ticket_frame s rpc classify pid now).1⟩

/-- C8 counterexample: a fully successful `Init` invoked at time 1000 on a
session constructed at time 42 leaves the session start time (the signing
epoch) at 42 — `Init` does not reset it. -/
theorem init_started_not_reset_counterexample :
    cStartedSession.started = 42 ∧
    (cStartedSession.Init oracleNewTicket cHash1 0 1000).2.2 = none ∧
    (cStartedSession.Init oracleNewTicket cHash1 0 1000).2.1.started = 42 ∧
    (42 : Nat) ≠ 1000 :=
  ⟨rfl, rfl, rfl, by decide⟩

/-- C8 (amended): every `Init` re-runs the provider login; once the login
succeeds it resets the session hash (to the fresh random bytes) and, on full
success, the ticket — `hasTicket` is set and the stored ticket is replaced by
exactly the auth ticket of the bootstrap response of `Init`'s single exchange
— but the session start time is fixed at construction and never reset by
`Init`. -/
theorem init_resets_hash_ticket_not_started (s : Session) (rpc : RPCOracle)
    (newHash : RawBytes) (pid : Int) (now : Nat) :
    (s.Init rpc newHash pid now).2.1.started = s.started ∧
    ((s.Init rpc newHash pid now).1.isSome = true →
      (s.Init rpc newHash pid now).2.1.hash = newHash) ∧
    ((s.Init rpc newHash pid now).2.2 = none →
      (s.Init rpc newHash pid now).2.1.hasTicket = true ∧
      ∃ ex resp, (s.Init rpc newHash pid now).1 = some ex ∧
        rpc ex.url ex.envelope ex.proxyId = .ok resp ∧
        (s.Init rpc newHash pid now).2.1.ticket = resp.GetAuthTicket) := by
  have hmain : (s.Init rpc newHash pid now).2.1.started = s.started ∧
      ((s.Init rpc newHash pid now).1.isSome = true →
        (s.Init rpc newHash pid now).2.1.hash = newHash) := by
    cases hl : s.provider.loginResult with
    | error e => simp [Session.Init, hl]
    | ok tok =>
      cases hr : rpc (Session.getURL { s with hash := newHash })
          (Session.buildEnvelope { s with hash := newHash } initRequests now) pid with
      | error e =>
        simp [Session.Init, Session.Call, hl, hr]
      | ok response =>
        by_cases hu : response.apiUrl = "" <;>
          simp [Session.Init, Session.Call, hl, hr, hu, Session.setURL, Session.setTicket]
  exact ⟨hmain.1, hmain.2, init_success_shape s rpc newHash pid now⟩

/-- C8 witness: the hash-reset and ticket-replacement clauses evaluated on a
concrete successful run whose response carries a fresh ticket. -/
theorem init_resets_hash_ticket_not_started_witness :
    (cStartedSession.Init oracleNewTicket cHash1 0 1000).2.1.hash = cHash1 ∧
    ((cStartedSession.Init oracleNewTicket cHash1 0 1000).2.1.hasTicket = true ∧
      ∃ ex resp, (cStartedSession.Init oracleNewTicket cHash1 0 1000).1 = some ex ∧
        oracleNewTicket ex.url ex.envelope ex.proxyId = .ok resp ∧
        (cStartedSession.Init oracleNewTicket cHash1 0 1000).2.1.ticket =
          resp.GetAuthTicket) :=
  ⟨(init_resets_hash_ticket_not_started cStartedSession oracleNewTicket cHash1 0 1000).2.1 rfl,
   (init_resets_hash_ticket_not_started cStartedSession oracleNewTicket cHash1 0 1000).2.2 rfl⟩

/-- C9: `MoveTo` replaces only the location (url, ticket state, hash, start
time, provider and signer are untouched, and in the model it performs no
exchange), and the very next `Call` builds its envelope with latitude,
longitude and accuracy taken from the new location. -/
theorem moveTo_frame_and_next_call (s : Session) (L : Location) (rpc : RPCOracle)
    (reqs : List Request) (pid : Int) (now : Nat) :
    (s.MoveTo L).location = L ∧
    (s.MoveTo L).url = s.url ∧
    (s.MoveTo L).hasTicket = s.hasTicket ∧
    (s.MoveTo L).ticket = s.ticket ∧
    (s.MoveTo L).hash = s.hash ∧
    (s.MoveTo L).started = s.started ∧
    (s.MoveTo L).provider = s.provider ∧
    (s.MoveTo L).signer = s.signer ∧
    ((s.MoveTo L).Call rpc reqs pid now).1.envelope.latitude = L.lat ∧
    ((s.MoveTo L).Call rpc reqs pid now).1.envelope.longitude = L.lon ∧
    ((s.MoveTo L).Call rpc reqs pid now).1.envelope.accuracy = L.accuracy :=
  ⟨rfl, rfl, rfl, rfl, rfl, rfl, rfl, rfl, rfl, rfl, rfl⟩

/-- C10: `CheckChallenge` and `SolveCaptcha` take no proxy-selector argument
at all and always dispatch their exchange with the fixed selector `-1`,
while the other operations dispatch with the caller-supplied selector. -/
theorem challenge_ops_fixed_proxy (s : Session) (rpc : RPCOracle)
    (classify : StatusClassifier) (sol spid : String) (pid : Int) (now : Nat)
    (eid : Nat) (loc : Location) :
    (s.CheckChallenge rpc classify now).1.proxyId = -1 ∧
    (s.SolveCaptcha rpc classify sol now).1.proxyId = -1 ∧
    (s.GetPlayer rpc classify pid now).1.proxyId = pid ∧
    (s.GetInventory rpc classify pid now).1.proxyId = pid ∧
    (s.Encounter rpc classify eid spid loc pid now).1.proxyId = pid ∧
    (s.Announce rpc classify pid now).1.proxyId = pid :=
  ⟨rfl, rfl, rfl, rfl, rfl, rfl⟩

/-- C5: when `Announce`'s exchange succeeds and the response decodes map
objects at index 5 and a challenge check at index 0, then: if the challenge
is shown and its url contains the rotation marker `"new RPC url"`, the
session's base url is set from the response's api url and the decoded map
objects are returned with a nil error; if the challenge is not shown, the
session is unchanged and the map objects are returned alongside the
status-classified error for the envelope's status code. -/
theorem announce_challenge_handling (s : Session) (rpc : RPCOracle)
    (classify : StatusClassifier) (pid : Int) (now : Nat)
    (resp : ResponseEnvelope) (mo : Nat) (sc : Bool) (curl : String)
    (hrpc : rpc s.getURL (s.buildEnvelope (announceRequests s now) now) pid = .ok resp)
    (h0 : resp.returns.get? 0 = some (.checkChallenge sc curl))
    (h5 : resp.returns.get? 5 = some (.mapObjects mo)) :
    (sc = true → stringContains curl "new RPC url" = true →
      (s.Announce rpc classify pid now).2.1 = s.setURL resp.apiUrl ∧
      (s.Announce rpc classify pid now).2.2 = .ret (some ⟨mo⟩) none) ∧
    (sc = false →
      (s.Announce rpc classify pid now).2.1 = s ∧
      (s.Announce rpc classify pid now).2.2 =
        .ret (some ⟨mo⟩) (classify resp.statusCode)) := by
  obtain ⟨hlt, -⟩ := List.get?_eq_some.mp h5
  have hnlt : ¬ resp.returns.length < 5 := by omega
  have h5g : resp.returns[5]? = some (.mapObjects mo) := by
    simpa [List.get?_eq_getElem?] using h5
  have h0g : resp.returns[0]? = some (.checkChallenge sc curl) := by
    simpa [List.get?_eq_getElem?] using h0
  constructor
  · rintro rfl hurl
    refine ⟨?_, ?_⟩ <;>
      simp [Session.Announce, Session.Call, hrpc, hnlt, h5g, h0g,
        unmarshalMapObjects, unmarshalCheckChallenge, hurl]
  · rintro rfl
    refine ⟨?_, ?_⟩ <;>
      simp [Session.Announce, Session.Call, hrpc, hnlt, h5g, h0g,
        unmarshalMapObjects, unmarshalCheckChallenge]

/-- C5 witness: both branches evaluated on canned responses (rotation marker
present with a shown challenge; challenge not shown with status code 52). -/
theorem announce_challenge_handling_witness :
    ((cAuthSession.Announce oracleChal classifyC 0 0).2.1 =
        cAuthSession.setURL "rot.example.com" ∧
      (cAuthSession.Announce oracleChal classifyC 0 0).2.2 = .ret (some ⟨7⟩) none) ∧
    ((cAuthSession.Announce oracleNoChal classifyC 0 0).2.1 = cAuthSession ∧
      (cAuthSession.Announce oracleNoChal classifyC 0 0).2.2 =
        .ret (some ⟨7⟩) (classifyC 52)) :=
  ⟨(announce_challenge_handling cAuthSession oracleChal classifyC 0 0 cRespChal 7
      true "please visit new RPC url now" rfl rfl rfl).1 rfl (by decide),
   (announce_challenge_handling cAuthSession oracleNoChal classifyC 0 0 cRespNoChal 7
      false "" rfl rfl rfl).2 rfl⟩

/-- C6: when the bootstrap response of `Init`'s exchange has an empty api
url, `Init` returns `ErrNoURL` — regardless of any auth ticket the response
carries — and the session keeps its previous url and ticket state. -/
theorem init_noURL_on_empty_apiUrl (s : Session) (rpc : RPCOracle)
    (newHash : RawBytes) (pid : Int) (now : Nat) (ex : Exchange)
    (resp : ResponseEnvelope)
    (hex : (s.Init rpc newHash pid now).1 = some ex)
    (hrpc : rpc ex.url ex.envelope ex.proxyId = .ok resp)
    (hurl : resp.apiUrl = "") :
    (s.Init rpc newHash pid now).2.2 = some .noURL ∧
    (s.Init rpc newHash pid now).2.1.url = s.url ∧
    (s.Init rpc newHash pid now).2.1.hasTicket = s.hasTicket ∧
    (s.Init rpc newHash pid now).2.1.ticket = s.ticket := by
  cases hl : s.provider.loginResult with
  | error e => simp [Session.Init, hl] at hex
  | ok tok =>
    have hexC := init_exchange_shape s rpc newHash pid now tok hl
    rw [hex] at hexC
    have hexeq := Option.some.inj hexC
    rw [hexeq] at hrpc
    dsimp only at hrpc
    cases hr : rpc (Session.getURL { s with hash := newHash })
        (Session.buildEnvelope { s with hash := newHash } initRequests now) pid with
    | error e =>
      rw [hr] at hrpc
      exact Except.noConfusion hrpc
    | ok response =>
      rw [hr] at hrpc
      injection hrpc with hre
      subst hre
      refine ⟨?_, ?_, ?_, ?_⟩ <;> simp [Session.Init, Session.Call, hl, hr, hurl]

/-- C6 witness: a concrete bootstrap response with an empty api url and a
valid ticket. -/
theorem init_noURL_on_empty_apiUrl_witness :
    (cUnauthSession.Init oracleEmptyURL cHash1 0 0).2.2 = some .noURL ∧
    (cUnauthSession.Init oracleEmptyURL cHash1 0 0).2.1.url = cUnauthSession.url ∧
    (cUnauthSession.Init oracleEmptyURL cHash1 0 0).2.1.hasTicket = cUnauthSession.hasTicket ∧
    (cUnauthSession.Init oracleEmptyURL cHash1 0 0).2.1.ticket = cUnauthSession.ticket :=
  init_noURL_on_empty_apiUrl cUnauthSession oracleEmptyURL cHash1 0 0
    ((cUnauthSession.Init oracleEmptyURL cHash1 0 0).1.getD dummyExchange)
    cRespEmptyURL rfl rfl rfl
